import Mathlib

/-!
Verification of the partner-application lifecycle and the fixed-window rate
limiter of the eatfast backend.

The shallow embedding below follows the source files:
  backend/models.py   (PartnerApplication.approve, PartnerApplication.reject)
  backend/views.py    (PartnerApplicationViewSet.approve, .reject,
                       .check_status, .bulk_update with action review)
  backend/utils.py    (check_rate_limit)

Conventions of the embedding:
  - Database timestamps are natural numbers (seconds); the single call site
    value of timezone.now() inside one request is one parameter now.
  - The Django cache is an association list from string keys to a stored
    value together with an absolute expiry instant; cache.get at time t
    treats an entry whose expiry is not in the future as absent, and
    cache.set stores value with expiry t + ttl, as Django does.
  - A view handler returns the HTTP-level outcome, the resulting database
    row for the touched application, and the ordered list of side effects
    (persist, then email attempt) it performed, so that ordering and
    rollback behaviour are visible in the model.
  - The email collaborator may succeed or fail; the views wrap the send in
    try/except and only log on failure, so the outcome flag is a parameter.
-/

/-- The six status choices of PartnerApplication.APPLICATION_STATUS_CHOICES. -/
inductive AppStatus where
  | pending
  | under_review
  | approved
  | rejected
  | on_hold
  | additional_info_required
deriving DecidableEq, Repr

/-- The lifecycle-relevant columns of the PartnerApplication model.
Users are opaque references (modelled as Nat ids); the UUID primary key is
modelled as an opaque Nat; nullable columns are Option. -/
structure PartnerApplication where
  id : Nat
  email : String
  status : AppStatus
  reviewer : Option Nat
  review_notes : Option String
  rejection_reason : Option String
  reviewed_at : Option Nat
  approved_at : Option Nat
deriving DecidableEq, Repr

/-- models.py PartnerApplication.approve: unconditionally sets status to
approved, the reviewer, and both timestamps to the current time, then saves
exactly the fields status, reviewer, reviewed_at, approved_at. -/
def PartnerApplication.approve (app : PartnerApplication) (reviewer : Nat)
    (now : Nat) : PartnerApplication :=
  { app with
    status := AppStatus.approved
    reviewer := some reviewer
    reviewed_at := some now
    approved_at := some now }

/-- models.py PartnerApplication.reject: unconditionally sets status to
rejected, the reviewer, the rejection reason and reviewed_at, then saves
exactly the fields status, reviewer, rejection_reason, reviewed_at. -/
def PartnerApplication.reject (app : PartnerApplication) (reviewer : Nat)
    (reason : String) (now : Nat) : PartnerApplication :=
  { app with
    status := AppStatus.rejected
    reviewer := some reviewer
    rejection_reason := some reason
    reviewed_at := some now }

/-- A freshly submitted application (serializer.save() on the submission
path): status defaults to pending, review fields and timestamps are null. -/
def submitApplication (id : Nat) (email : String) : PartnerApplication :=
  { id := id
    email := email
    status := AppStatus.pending
    reviewer := none
    review_notes := none
    rejection_reason := none
    reviewed_at := none
    approved_at := none }

/-- ASCII lowercasing of an email address, character by character: the
normalization underlying the case-insensitive email__iexact filter of the
status lookup (and str.lower on the ASCII addresses the model stores). -/
def emailLower (s : String) : String := ⟨s.data.map Char.toLower⟩

/-- HTTP-level outcome of the approve and reject view actions, with the
response message of views.py. -/
inductive ApiResult where
  | ok (message : String)
  | badRequest (message : String)
deriving DecidableEq, Repr

/-- Side effects a view performs, in order: persisting the updated row, and
attempting to send an email whose outcome is the recorded flag. -/
inductive Event where
  | persist (app : PartnerApplication)
  | emailAttempt (ok : Bool)
deriving DecidableEq, Repr

namespace PartnerApplicationViewSet

/-- views.py PartnerApplicationViewSet.approve: rejects the request with 400
unless the status is exactly pending; otherwise calls the model approve
(which saves), then attempts the approval email inside try/except, logging
but swallowing a failure, and reports success. -/
def approve (application : PartnerApplication) (user : Nat) (now : Nat)
    (email_ok : Bool) : ApiResult × PartnerApplication × List Event :=
  if application.status ≠ AppStatus.pending then
    (ApiResult.badRequest "Seules les candidatures en attente peuvent être approuvées.",
      application, [])
  else
    let application' := application.approve user now
    (ApiResult.ok "Candidature approuvée avec succès.", application',
      [Event.persist application', Event.emailAttempt email_ok])

/-- views.py PartnerApplicationViewSet.reject: rejects the request with 400
when the reason is missing or empty (Python falsiness of request.data.get);
otherwise, with no check of the current status, calls the model reject
(which saves), then attempts the rejection email inside try/except, logging
but swallowing a failure, and reports success. -/
def reject (application : PartnerApplication) (user : Nat)
    (reason : Option String) (now : Nat) (email_ok : Bool) :
    ApiResult × PartnerApplication × List Event :=
  match reason with
  | none => (ApiResult.badRequest "Raison du rejet requise.", application, [])
  | some r =>
    if r = "" then
      (ApiResult.badRequest "Raison du rejet requise.", application, [])
    else
      let application' := application.reject user r now
      (ApiResult.ok "Candidature rejetée.", application',
        [Event.persist application', Event.emailAttempt email_ok])

/-- views.py PartnerApplicationViewSet.bulk_update, action review: a
queryset update setting status to under_review, the reviewer, and
reviewed_at to the current time, for each selected application. -/
def bulk_review (application : PartnerApplication) (user : Nat) (now : Nat) :
    PartnerApplication :=
  { application with
    status := AppStatus.under_review
    reviewer := some user
    reviewed_at := some now }

/-- Outcome of the unauthenticated status lookup. -/
inductive StatusLookupResult where
  | ok (payload_status : AppStatus)
  | badRequest
  | notFound
deriving DecidableEq, Repr

/-- views.py PartnerApplicationViewSet.check_status: requires both fields
(missing or empty email is a 400); then objects.get filtered by the primary
key and email__iexact (case-insensitive email match); DoesNotExist is a
404. The id column is the primary key, so at most one row matches and
find? over the table models objects.get. -/
def check_status (db : List PartnerApplication) (application_id : Option Nat)
    (email : Option String) : StatusLookupResult :=
  match application_id, email with
  | some appId, some e =>
    if e = "" then StatusLookupResult.badRequest
    else
      match db.find? (fun a => a.id == appId && emailLower a.email == emailLower e) with
      | some a => StatusLookupResult.ok a.status
      | none => StatusLookupResult.notFound
  | _, _ => StatusLookupResult.badRequest

end PartnerApplicationViewSet

/-- One entry of the Django cache: the stored integer and the absolute
instant at which the entry expires. -/
structure CacheEntry where
  value : Nat
  expires_at : Nat
deriving DecidableEq, Repr

/-- The Django cache as seen by backend/utils.py: string keys mapped to
counter entries with expiry. -/
structure Cache where
  entries : List (String × CacheEntry)
deriving DecidableEq, Repr

/-- The empty cache (no key has ever been set, or all have expired and been
evicted). -/
def Cache.empty : Cache := ⟨[]⟩

/-- cache.get key default at time now: an entry whose expiry is not in the
future counts as absent and yields the default. -/
def Cache.get (c : Cache) (now : Nat) (key : String) (default : Nat) : Nat :=
  match c.entries.find? (fun p => p.1 == key) with
  | some p => if now < p.2.expires_at then p.2.value else default
  | none => default

/-- cache.set key value ttl at time now: stores the value under the key
with expiry now + ttl, replacing any previous entry for that key. -/
def Cache.set (c : Cache) (now : Nat) (key : String) (value : Nat)
    (ttl : Nat) : Cache :=
  ⟨(key, ⟨value, now + ttl⟩) :: c.entries.filter (fun p => ¬ p.1 == key)⟩

/-- The expiry instant currently recorded for a key, regardless of whether
it is still live. -/
def Cache.expiryOf (c : Cache) (key : String) : Option Nat :=
  (c.entries.find? (fun p => p.1 == key)).map (fun p => p.2.expires_at)

/-- The composite cache key of utils.py check_rate_limit,
rate_limit:action:identifier. -/
def rateKey (action : String) (identifier : String) : String :=
  "rate_limit:" ++ action ++ ":" ++ identifier

/-- utils.py check_rate_limit: read the current count (default 0); deny
without touching the cache when it is at least max_requests; otherwise
store count + 1 with expiry window_hours * 3600 and allow. Returns the
decision and the cache as the call leaves it. -/
def check_rate_limit (c : Cache) (now : Nat) (identifier : String)
    (action : String) (max_requests : Nat) (window_hours : Nat) :
    Bool × Cache :=
  let cache_key := rateKey action identifier
  let current_requests := c.get now cache_key 0
  if current_requests ≥ max_requests then
    (false, c)
  else
    (true, c.set now cache_key (current_requests + 1) (window_hours * 3600))

/-- The read phase of check_rate_limit: the single cache.get it performs.
Splitting the call at the cache accesses exposes the interleavings the
shared cache admits between concurrent callers. -/
def rateLimitRead (c : Cache) (now : Nat) (identifier : String)
    (action : String) : Nat :=
  c.get now (rateKey action identifier) 0

/-- The remainder of check_rate_limit after its cache.get returned the
observed count: the comparison and, on allow, the single cache.set. -/
def rateLimitFinish (c : Cache) (now : Nat) (identifier : String)
    (action : String) (observed : Nat) (max_requests : Nat)
    (window_hours : Nat) : Bool × Cache :=
  if observed ≥ max_requests then
    (false, c)
  else
    (true, c.set now (rateKey action identifier) (observed + 1)
      (window_hours * 3600))

/-- The two phases compose to exactly check_rate_limit: the decomposition
used to study interleavings is faithful to the source. -/
theorem check_rate_limit_phases (c : Cache) (now : Nat)
    (identifier action : String) (max_requests window_hours : Nat) :
    check_rate_limit c now identifier action max_requests window_hours =
      rateLimitFinish c now identifier action
        (rateLimitRead c now identifier action) max_requests window_hours := rfl

/-- Two concurrent callers of check_rate_limit on the same key, interleaved
so that both cache.get reads happen before either cache.set write (the
schedule read A, read B, write A, write B on the shared cache). Returns
both decisions and the final cache. -/
def interleavedPair (c : Cache) (now : Nat) (identifier : String)
    (action : String) (max_requests : Nat) (window_hours : Nat) :
    Bool × Bool × Cache :=
  let rA := rateLimitRead c now identifier action
  let rB := rateLimitRead c now identifier action
  let outA := rateLimitFinish c now identifier action rA max_requests window_hours
  let outB := rateLimitFinish outA.2 now identifier action rB max_requests window_hours
  (outA.1, outB.1, outB.2)

/-- A back-to-back sequence of n calls to check_rate_limit at one instant
(within a single window), threading the cache; returns the list of
decisions in call order and the final cache. -/
def rateSeq (c : Cache) (now : Nat) (identifier : String) (action : String)
    (max_requests : Nat) (window_hours : Nat) : Nat → List Bool × Cache
  | 0 => ([], c)
  | n + 1 =>
    let out := check_rate_limit c now identifier action max_requests window_hours
    let rest := rateSeq out.2 now identifier action max_requests window_hours n
    (out.1 :: rest.1, rest.2)

/-- A cache holding a single counter entry. -/
def singleCounter (key : String) (value : Nat) (expires_at : Nat) : Cache :=
  ⟨[(key, ⟨value, expires_at⟩)]⟩

theorem Cache.get_empty (now : Nat) (key : String) (d : Nat) :
    Cache.empty.get now key d = d := rfl

theorem Cache.get_single_same (now : Nat) (key : String) (v exp d : Nat) :
    (singleCounter key v exp).get now key d = if now < exp then v else d := by
  simp [Cache.get, singleCounter]

theorem Cache.set_single_same (now : Nat) (key : String) (v exp v' ttl : Nat) :
    (singleCounter key v exp).set now key v' ttl =
      singleCounter key v' (now + ttl) := by
  simp [Cache.set, singleCounter]

theorem Cache.set_empty (now : Nat) (key : String) (v ttl : Nat) :
    Cache.empty.set now key v ttl = singleCounter key v (now + ttl) := rfl

theorem Cache.get_set_same (c : Cache) (now t : Nat) (key : String)
    (v ttl d : Nat) :
    (c.set now key v ttl).get t key d = if t < now + ttl then v else d := by
  simp [Cache.set, Cache.get]

theorem Cache.expiryOf_set_same (c : Cache) (now : Nat) (key : String)
    (v ttl : Nat) :
    (c.set now key v ttl).expiryOf key = some (now + ttl) := by
  simp [Cache.set, Cache.expiryOf]

theorem check_rate_limit_empty_allow (now : Nat) (identifier action : String)
    (max_requests window_hours : Nat) (hmax : 0 < max_requests) :
    check_rate_limit Cache.empty now identifier action max_requests window_hours =
      (true, singleCounter (rateKey action identifier) 1
        (now + window_hours * 3600)) := by
  simp [check_rate_limit, Cache.get_empty, Cache.set_empty, Nat.not_le.mpr hmax]

theorem check_rate_limit_single_allow (now : Nat) (identifier action : String)
    (v exp max_requests window_hours : Nat) (hlive : now < exp)
    (hv : v < max_requests) :
    check_rate_limit (singleCounter (rateKey action identifier) v exp) now
        identifier action max_requests window_hours =
      (true, singleCounter (rateKey action identifier) (v + 1)
        (now + window_hours * 3600)) := by
  simp [check_rate_limit, Cache.get_single_same, hlive, Nat.not_le.mpr hv,
    Cache.set_single_same]

theorem check_rate_limit_single_deny (now : Nat) (identifier action : String)
    (v exp max_requests window_hours : Nat) (hlive : now < exp)
    (hv : max_requests ≤ v) :
    check_rate_limit (singleCounter (rateKey action identifier) v exp) now
        identifier action max_requests window_hours =
      (false, singleCounter (rateKey action identifier) v exp) := by
  simp [check_rate_limit, Cache.get_single_same, hlive, hv]

/-- While the counter stays below the limit, every call in the sequence is
allowed and the counter advances by one per call, keeping the expiry of the
window that each allowed set refreshes. -/
theorem rateSeq_single_allowed (now : Nat) (identifier action : String)
    (max_requests window_hours : Nat) (hwh : 0 < window_hours) :
    ∀ n v, v + n ≤ max_requests →
      rateSeq (singleCounter (rateKey action identifier) v
          (now + window_hours * 3600)) now identifier action max_requests
          window_hours n =
        (List.replicate n true,
          singleCounter (rateKey action identifier) (v + n)
            (now + window_hours * 3600)) := by
  intro n
  induction n with
  | zero => intro v _; simp [rateSeq]
  | succ m ih =>
    intro v hvm
    have hlive : now < now + window_hours * 3600 :=
      Nat.lt_add_of_pos_right (Nat.mul_pos hwh (by norm_num))
    have hv : v < max_requests := by omega
    have hstep := check_rate_limit_single_allow now identifier action v
      (now + window_hours * 3600) max_requests window_hours hlive hv
    have hrest := ih (v + 1) (by omega)
    have harith : v + 1 + m = v + (m + 1) := by omega
    simp only [rateSeq, hstep, hrest, harith, List.replicate_succ]

/-- Once the counter has reached the limit, every further call in the same
window is denied and the cache is left untouched. -/
theorem rateSeq_single_denied (now : Nat) (identifier action : String)
    (max_requests window_hours v exp : Nat) (hlive : now < exp)
    (hv : max_requests ≤ v) :
    ∀ n, rateSeq (singleCounter (rateKey action identifier) v exp) now
        identifier action max_requests window_hours n =
      (List.replicate n false,
        singleCounter (rateKey action identifier) v exp) := by
  intro n
  induction n with
  | zero => simp [rateSeq]
  | succ m ih =>
    have hstep := check_rate_limit_single_deny now identifier action v exp
      max_requests window_hours hlive hv
    simp only [rateSeq, hstep, ih]
    rfl

/-- Splitting a call sequence: m + n calls are the first m calls followed by
n calls starting from the cache the first m calls left behind. -/
theorem rateSeq_append (now : Nat) (identifier action : String)
    (max_requests window_hours : Nat) :
    ∀ m n c, rateSeq c now identifier action max_requests window_hours (m + n) =
      ((rateSeq c now identifier action max_requests window_hours m).1 ++
        (rateSeq (rateSeq c now identifier action max_requests window_hours m).2
          now identifier action max_requests window_hours n).1,
        (rateSeq (rateSeq c now identifier action max_requests window_hours m).2
          now identifier action max_requests window_hours n).2) := by
  intro m
  induction m with
  | zero => intro n c; simp [rateSeq]
  | succ k ih =>
    intro n c
    have heq : k + 1 + n = (k + n) + 1 := by omega
    rw [heq]
    simp only [rateSeq, ih, List.cons_append]

/-- A single call in sequence form is just one check_rate_limit call. -/
theorem rateSeq_one (c : Cache) (now : Nat) (identifier action : String)
    (max_requests window_hours : Nat) :
    rateSeq c now identifier action max_requests window_hours 1 =
      ([(check_rate_limit c now identifier action max_requests window_hours).1],
        (check_rate_limit c now identifier action max_requests window_hours).2) := by
  simp [rateSeq]

/-- C2: for every non-empty identifier and action, positive limit and
positive window, a fresh sequence of max_requests + 1 calls at one instant
(inside a single window) is allowed exactly max_requests times and the
final call is denied. -/
theorem rate_limit_first_max_allowed_then_denied (identifier action : String)
    (_hid : identifier ≠ "") (_hact : action ≠ "")
    (max_requests window_hours now : Nat) (hmax : 0 < max_requests)
    (hwh : 0 < window_hours) :
    (rateSeq Cache.empty now identifier action max_requests window_hours
        (max_requests + 1)).1 =
      List.replicate max_requests true ++ [false] := by
  obtain ⟨k, rfl⟩ : ∃ k, max_requests = k + 1 := ⟨max_requests - 1, by omega⟩
  have hE : now < now + window_hours * 3600 :=
    Nat.lt_add_of_pos_right (Nat.mul_pos hwh (by norm_num))
  have h1 := check_rate_limit_empty_allow now identifier action (k + 1)
    window_hours (by omega)
  have h2 := rateSeq_single_allowed now identifier action (k + 1) window_hours
    hwh k 1 (by omega)
  have h3 := rateSeq_single_denied now identifier action (k + 1) window_hours
    (1 + k) (now + window_hours * 3600) hE (by omega) 1
  have hsplit : k + 1 + 1 = 1 + (k + 1) := by omega
  rw [hsplit,
    rateSeq_append now identifier action (k + 1) window_hours 1 (k + 1)
      Cache.empty,
    rateSeq_one, h1,
    rateSeq_append now identifier action (k + 1) window_hours k 1 _]
  simp only [h2, h3]
  simp [List.replicate_succ]

/-- C7: a single check_rate_limit call denies and leaves the cache exactly
as it was when the live count has reached max_requests; otherwise it allows
and afterwards the stored count is one higher and the key expires a full
window after the call. -/
theorem check_rate_limit_frame (c : Cache) (now : Nat)
    (identifier action : String) (max_requests window_hours : Nat)
    (hwh : 0 < window_hours) :
    (max_requests ≤ c.get now (rateKey action identifier) 0 →
      check_rate_limit c now identifier action max_requests window_hours =
        (false, c)) ∧
    (c.get now (rateKey action identifier) 0 < max_requests →
      (check_rate_limit c now identifier action max_requests window_hours).1 =
          true ∧
        (check_rate_limit c now identifier action max_requests
            window_hours).2.get now (rateKey action identifier) 0 =
          c.get now (rateKey action identifier) 0 + 1 ∧
        (check_rate_limit c now identifier action max_requests
            window_hours).2.expiryOf (rateKey action identifier) =
          some (now + window_hours * 3600)) := by
  have hE : now < now + window_hours * 3600 :=
    Nat.lt_add_of_pos_right (Nat.mul_pos hwh (by norm_num))
  constructor
  · intro h
    simp [check_rate_limit, h]
  · intro h
    simp [check_rate_limit, Nat.not_le.mpr h, Cache.get_set_same,
      Cache.expiryOf_set_same, hE]

/-- Witness for C7 at concrete inputs: a counter at the limit is denied
without mutation, and a call on a fresh key is allowed. -/
theorem check_rate_limit_frame_witness :
    check_rate_limit (singleCounter (rateKey "cf" "ip") 3 50) 0 "ip" "cf" 3 1 =
        (false, singleCounter (rateKey "cf" "ip") 3 50) ∧
      (check_rate_limit Cache.empty 0 "ip" "cf" 3 1).1 = true :=
  ⟨(check_rate_limit_frame (singleCounter (rateKey "cf" "ip") 3 50) 0 "ip" "cf"
      3 1 (by decide)).1 (by decide),
    ((check_rate_limit_frame Cache.empty 0 "ip" "cf" 3 1 (by decide)).2
      (by decide)).1⟩

/-- Counterexample to C8 as stated: two concurrent calls on the same key
with max_requests = 1, interleaved so both reads precede both writes, are
both admitted, so the number of true results is 2, not exactly
max_requests = 1. -/
theorem rate_limit_atomicity_counterexample :
    (interleavedPair Cache.empty 0 "203.0.113.5" "partner_application" 1 24).1 =
        true ∧
      (interleavedPair Cache.empty 0 "203.0.113.5" "partner_application" 1
          24).2.1 = true ∧
      ((if (interleavedPair Cache.empty 0 "203.0.113.5" "partner_application" 1
            24).1 then 1 else 0) +
          (if (interleavedPair Cache.empty 0 "203.0.113.5" "partner_application"
              1 24).2.1 then 1 else 0) : Nat) ≠ 1 := by
  decide

/-- C8 amended: check_rate_limit reads and writes the shared counter in two
separate cache operations, so in the interleaving where both callers read
before either writes, both calls are admitted regardless of the limit, and
one increment is lost: the final stored count is 1. -/
theorem rate_limit_nonatomic_over_admission (identifier action : String)
    (max_requests window_hours now : Nat) (hmax : 0 < max_requests)
    (hwh : 0 < window_hours) :
    (interleavedPair Cache.empty now identifier action max_requests
        window_hours).1 = true ∧
      (interleavedPair Cache.empty now identifier action max_requests
          window_hours).2.1 = true ∧
      (interleavedPair Cache.empty now identifier action max_requests
          window_hours).2.2.get now (rateKey action identifier) 0 = 1 := by
  have hE : now < now + window_hours * 3600 :=
    Nat.lt_add_of_pos_right (Nat.mul_pos hwh (by norm_num))
  simp [interleavedPair, rateLimitRead, rateLimitFinish, Cache.get_empty,
    Nat.not_le.mpr hmax, Cache.set_empty, Cache.set_single_same,
    Cache.get_single_same, hE]

/-- Witness for the amended C8 at concrete inputs. -/
theorem rate_limit_nonatomic_over_admission_witness :
    (interleavedPair Cache.empty 7 "10.0.0.1" "contact_form" 5 1).1 = true ∧
      (interleavedPair Cache.empty 7 "10.0.0.1" "contact_form" 5 1).2.1 =
        true ∧
      (interleavedPair Cache.empty 7 "10.0.0.1" "contact_form" 5
          1).2.2.get 7 (rateKey "contact_form" "10.0.0.1") 0 = 1 :=
  rate_limit_nonatomic_over_admission "10.0.0.1" "contact_form" 5 1 7
    (by decide) (by decide)

/-- Witness for C2 at concrete inputs: limit 3, a fourth call in the same
window is denied. -/
theorem rate_limit_first_max_allowed_then_denied_witness :
    "ip" ≠ "" ∧ "contact_form" ≠ "" ∧ 0 < 3 ∧ 0 < 1 ∧
      (rateSeq Cache.empty 0 "ip" "contact_form" 3 1 4).1 =
        List.replicate 3 true ++ [false] :=
  ⟨by decide, by decide, by decide, by decide,
    rate_limit_first_max_allowed_then_denied "ip" "contact_form" (by decide)
      (by decide) 3 1 0 (by decide) (by decide)⟩

/-- C5: the reject view with a missing or empty reason answers 400, performs
no side effect, and leaves the application record exactly as it was,
whatever its current state. -/
theorem reject_empty_reason_validation_error (app : PartnerApplication)
    (user now : Nat) (email_ok : Bool) :
    PartnerApplicationViewSet.reject app user none now email_ok =
        (ApiResult.badRequest "Raison du rejet requise.", app, []) ∧
      PartnerApplicationViewSet.reject app user (some "") now email_ok =
        (ApiResult.badRequest "Raison du rejet requise.", app, []) := by
  constructor
  · rfl
  · simp [PartnerApplicationViewSet.reject]

/-- C9: the model approve writes exactly status, reviewer, reviewed_at and
approved_at, and the model reject writes exactly status, reviewer,
rejection_reason and reviewed_at; in particular reject never touches
approved_at, so it stays null when it was null. -/
theorem approve_reject_field_frame (app : PartnerApplication) (u : Nat)
    (r : String) (now : Nat) :
    ((app.approve u now).status = AppStatus.approved ∧
      (app.approve u now).reviewer = some u ∧
      (app.approve u now).reviewed_at = some now ∧
      (app.approve u now).approved_at = some now ∧
      (app.approve u now).rejection_reason = app.rejection_reason ∧
      (app.approve u now).review_notes = app.review_notes ∧
      (app.approve u now).id = app.id ∧
      (app.approve u now).email = app.email) ∧
    ((app.reject u r now).status = AppStatus.rejected ∧
      (app.reject u r now).reviewer = some u ∧
      (app.reject u r now).rejection_reason = some r ∧
      (app.reject u r now).reviewed_at = some now ∧
      (app.reject u r now).approved_at = app.approved_at ∧
      (app.reject u r now).review_notes = app.review_notes ∧
      (app.reject u r now).id = app.id ∧
      (app.reject u r now).email = app.email) ∧
    (app.approved_at = none → (app.reject u r now).approved_at = none) :=
  ⟨⟨rfl, rfl, rfl, rfl, rfl, rfl, rfl, rfl⟩,
    ⟨rfl, rfl, rfl, rfl, rfl, rfl, rfl, rfl⟩,
    fun h => h⟩

/-- Witness for C9 at a concrete application whose approved_at is null: it
is still null after reject. -/
theorem approve_reject_field_frame_witness :
    ((submitApplication 42 "o@r.cm").reject 7 "docs" 5).approved_at = none :=
  (approve_reject_field_frame (submitApplication 42 "o@r.cm") 7 "docs" 5).2.2
    rfl

/-- C6: every successful transition into approved or rejected persists the
new state first and attempts the notification afterwards; the response and
the persisted state are the same whether the email send succeeds or fails,
so a notification failure neither rolls back the transition nor turns it
into a failure. Approve succeeds exactly from pending (its only guard);
reject has no status guard, so with a non-empty reason it succeeds from
every current state, and the property holds for all of those rejects. -/
theorem notification_after_persist (app : PartnerApplication)
    (user now : Nat) (email_ok : Bool) (r : String) (hr : r ≠ "") :
    (app.status = AppStatus.pending →
      PartnerApplicationViewSet.approve app user now email_ok =
        (ApiResult.ok "Candidature approuvée avec succès.",
          app.approve user now,
          [Event.persist (app.approve user now),
            Event.emailAttempt email_ok])) ∧
      PartnerApplicationViewSet.reject app user (some r) now email_ok =
        (ApiResult.ok "Candidature rejetée.", app.reject user r now,
          [Event.persist (app.reject user r now),
            Event.emailAttempt email_ok]) := by
  constructor
  · intro hp
    simp [PartnerApplicationViewSet.approve, hp]
  · simp [PartnerApplicationViewSet.reject, hr]

/-- Witness for C6: a pending application approved with a failing email
send still answers success, and a reject of an under_review (non-pending)
application with a failing email send also still answers success. -/
theorem notification_after_persist_witness :
    (PartnerApplicationViewSet.approve (submitApplication 1 "a@b.cm") 7 100
        false).1 = ApiResult.ok "Candidature approuvée avec succès." ∧
      (PartnerApplicationViewSet.reject
          (PartnerApplicationViewSet.bulk_review (submitApplication 1 "a@b.cm")
            7 50) 8 (some "docs") 100 false).1 =
        ApiResult.ok "Candidature rejetée." :=
  ⟨congrArg Prod.fst
      ((notification_after_persist (submitApplication 1 "a@b.cm") 7 100 false
          "docs" (by decide)).1 rfl),
    congrArg Prod.fst
      ((notification_after_persist
          (PartnerApplicationViewSet.bulk_review (submitApplication 1 "a@b.cm")
            7 50) 8 100 false "docs" (by decide)).2)⟩

/-- Counterexample to C1 as stated: an application is approved, then a
reject request on the now-approved application succeeds (the reject view
never checks the current status) and overwrites the status to rejected,
instead of failing and preserving the approved status. -/
theorem terminal_overwrite_counterexample :
    (PartnerApplicationViewSet.approve (submitApplication 11 "m@r.cm") 1 10
        true).2.1.status = AppStatus.approved ∧
      (PartnerApplicationViewSet.reject
          (PartnerApplicationViewSet.approve (submitApplication 11 "m@r.cm") 1
              10 true).2.1
          2 (some "fraud") 20 true).1 = ApiResult.ok "Candidature rejetée." ∧
      (PartnerApplicationViewSet.reject
          (PartnerApplicationViewSet.approve (submitApplication 11 "m@r.cm") 1
              10 true).2.1
          2 (some "fraud") 20 true).2.1.status = AppStatus.rejected := by
  decide

/-- C1 amended: only the approve view guards the transition. A second
approve after an approve or a reject fails with 400 and leaves the record
untouched; but the reject view performs no status check, so rejecting an
already-rejected application succeeds again (leaving the status rejected),
and rejecting an already-approved application succeeds and overwrites the
status to rejected. -/
theorem terminal_state_enforcement_asymmetry (app : PartnerApplication)
    (u1 u2 t1 t2 : Nat) (e1 e2 : Bool) (r1 r2 : String)
    (hp : app.status = AppStatus.pending) (hr1 : r1 ≠ "") (hr2 : r2 ≠ "") :
    (PartnerApplicationViewSet.approve
        (PartnerApplicationViewSet.approve app u1 t1 e1).2.1 u2 t2 e2 =
      (ApiResult.badRequest
          "Seules les candidatures en attente peuvent être approuvées.",
        (PartnerApplicationViewSet.approve app u1 t1 e1).2.1, [])) ∧
    (PartnerApplicationViewSet.approve
        (PartnerApplicationViewSet.reject app u1 (some r1) t1 e1).2.1 u2 t2
        e2 =
      (ApiResult.badRequest
          "Seules les candidatures en attente peuvent être approuvées.",
        (PartnerApplicationViewSet.reject app u1 (some r1) t1 e1).2.1, [])) ∧
    ((PartnerApplicationViewSet.reject
        (PartnerApplicationViewSet.reject app u1 (some r1) t1 e1).2.1 u2
        (some r2) t2 e2).1 = ApiResult.ok "Candidature rejetée." ∧
      (PartnerApplicationViewSet.reject
          (PartnerApplicationViewSet.reject app u1 (some r1) t1 e1).2.1 u2
          (some r2) t2 e2).2.1.status = AppStatus.rejected) ∧
    ((PartnerApplicationViewSet.reject
        (PartnerApplicationViewSet.approve app u1 t1 e1).2.1 u2 (some r2) t2
        e2).1 = ApiResult.ok "Candidature rejetée." ∧
      (PartnerApplicationViewSet.reject
          (PartnerApplicationViewSet.approve app u1 t1 e1).2.1 u2 (some r2)
          t2 e2).2.1.status = AppStatus.rejected) := by
  refine ⟨?_, ?_, ⟨?_, ?_⟩, ⟨?_, ?_⟩⟩ <;>
    simp [PartnerApplicationViewSet.approve, PartnerApplicationViewSet.reject,
      PartnerApplication.approve, PartnerApplication.reject, hp, hr1, hr2]

/-- Witness for the amended C1: concrete double-approve fails with 400 and
leaves the record as after the first approve. -/
theorem terminal_state_enforcement_asymmetry_witness :
    PartnerApplicationViewSet.approve
        (PartnerApplicationViewSet.approve (submitApplication 3 "w@x.cm") 1 10
            true).2.1 2 20 true =
      (ApiResult.badRequest
          "Seules les candidatures en attente peuvent être approuvées.",
        (PartnerApplicationViewSet.approve (submitApplication 3 "w@x.cm") 1 10
            true).2.1, []) :=
  (terminal_state_enforcement_asymmetry (submitApplication 3 "w@x.cm") 1 2 10
      20 true true "a" "b" rfl (by decide) (by decide)).1

/-- Counterexample to C3 as stated: after submit and start_review, the
approve view answers 400 and leaves the application under_review, because
it only accepts applications whose status is exactly pending; the scenario
never reaches the approved state. -/
theorem review_then_approve_counterexample :
    PartnerApplicationViewSet.approve
        (PartnerApplicationViewSet.bulk_review (submitApplication 5 "r@s.cm")
          1 100) 2 200 true =
      (ApiResult.badRequest
          "Seules les candidatures en attente peuvent être approuvées.",
        PartnerApplicationViewSet.bulk_review (submitApplication 5 "r@s.cm") 1
          100, []) ∧
    (PartnerApplicationViewSet.bulk_review (submitApplication 5 "r@s.cm") 1
        100).status = AppStatus.under_review := by
  decide

/-- C3 amended: submit yields pending; start_review yields under_review
with reviewed_at set; a subsequent approve fails with 400 and changes
nothing; approve succeeds only directly from pending, and then it sets
approved_at to the current time and overwrites reviewed_at to the same
current time. -/
theorem review_then_approve_amended (idv : Nat) (em : String)
    (u1 u2 t1 t2 : Nat) (e2 : Bool) :
    (submitApplication idv em).status = AppStatus.pending ∧
    (PartnerApplicationViewSet.bulk_review (submitApplication idv em) u1
        t1).status = AppStatus.under_review ∧
    (PartnerApplicationViewSet.bulk_review (submitApplication idv em) u1
        t1).reviewed_at = some t1 ∧
    PartnerApplicationViewSet.approve
        (PartnerApplicationViewSet.bulk_review (submitApplication idv em) u1
          t1) u2 t2 e2 =
      (ApiResult.badRequest
          "Seules les candidatures en attente peuvent être approuvées.",
        PartnerApplicationViewSet.bulk_review (submitApplication idv em) u1
          t1, []) ∧
    (PartnerApplicationViewSet.approve (submitApplication idv em) u2 t2
        e2).1 = ApiResult.ok "Candidature approuvée avec succès." ∧
    (PartnerApplicationViewSet.approve (submitApplication idv em) u2 t2
        e2).2.1.status = AppStatus.approved ∧
    (PartnerApplicationViewSet.approve (submitApplication idv em) u2 t2
        e2).2.1.approved_at = some t2 ∧
    (PartnerApplicationViewSet.approve (submitApplication idv em) u2 t2
        e2).2.1.reviewed_at = some t2 := by
  refine ⟨rfl, rfl, rfl, ?_, ?_, ?_, ?_, ?_⟩ <;>
    simp [PartnerApplicationViewSet.approve,
      PartnerApplicationViewSet.bulk_review, PartnerApplication.approve,
      submitApplication]

/-- If some element of a list satisfies the predicate and every satisfying
element is that one, find? returns exactly it. Models objects.get on a
column set containing the primary key. -/
theorem find_first_of_unique {α : Type} (p : α → Bool) (l : List α) (a : α)
    (ha : a ∈ l) (hpa : p a = true)
    (huniq : ∀ b ∈ l, p b = true → b = a) : l.find? p = some a := by
  induction l with
  | nil => cases ha
  | cons x xs ih =>
    by_cases hx : p x = true
    · have hxa : x = a := huniq x (List.mem_cons_self x xs) hx
      rw [List.find?_cons_of_pos _ hx, hxa]
    · have hax : a ∈ xs := by
        rcases List.mem_cons.mp ha with h | h
        · exact absurd (h ▸ hpa) hx
        · exact h
      rw [List.find?_cons_of_neg _ hx]
      exact ih hax (fun b hb hpb => huniq b (List.mem_cons_of_mem x hb) hpb)

/-- C4: with the primary-key uniqueness of id, a status lookup with the
right id but a non-matching (case-insensitively) email, and a lookup with
an id no row has, both produce the very same notFound outcome as a
completely unknown identifier. -/
theorem check_status_not_found_uniform (db : List PartnerApplication)
    (app : PartnerApplication) (_happ : app ∈ db)
    (huniq : ∀ b ∈ db, b.id = app.id → b = app)
    (e : String) (he : e ≠ "") (hmismatch : emailLower e ≠ emailLower app.email)
    (badId : Nat) (hbad : ∀ b ∈ db, b.id ≠ badId)
    (e2 : String) (he2 : e2 ≠ "") :
    PartnerApplicationViewSet.check_status db (some app.id) (some e) =
        PartnerApplicationViewSet.StatusLookupResult.notFound ∧
      PartnerApplicationViewSet.check_status db (some badId) (some e2) =
        PartnerApplicationViewSet.StatusLookupResult.notFound := by
  constructor
  · have hnone :
        db.find? (fun a => a.id == app.id && emailLower a.email == emailLower e) =
          none := by
      rw [List.find?_eq_none]
      intro b hb
      simp only [Bool.and_eq_true, beq_iff_eq, not_and]
      intro hid hemail
      have hba : b = app := huniq b hb hid
      exact hmismatch ((hba ▸ hemail).symm)
    simp [PartnerApplicationViewSet.check_status, he, hnone]
  · have hnone :
        db.find? (fun a => a.id == badId && emailLower a.email == emailLower e2) =
          none := by
      rw [List.find?_eq_none]
      intro b hb
      simp only [Bool.and_eq_true, beq_iff_eq, not_and]
      intro hid _
      exact absurd hid (hbad b hb)
    simp [PartnerApplicationViewSet.check_status, he2, hnone]

/-- Witness for C4 at a concrete one-row table: right id with wrong email,
and unknown id with the right email, both answer notFound. -/
theorem check_status_not_found_uniform_witness :
    PartnerApplicationViewSet.check_status [submitApplication 1 "owner@resto.cm"]
        (some 1) (some "other@resto.cm") =
        PartnerApplicationViewSet.StatusLookupResult.notFound ∧
      PartnerApplicationViewSet.check_status
        [submitApplication 1 "owner@resto.cm"] (some 2)
        (some "owner@resto.cm") =
        PartnerApplicationViewSet.StatusLookupResult.notFound :=
  check_status_not_found_uniform [submitApplication 1 "owner@resto.cm"]
    (submitApplication 1 "owner@resto.cm") (by decide) (by decide)
    "other@resto.cm" (by decide) (by decide) 2 (by decide) "owner@resto.cm"
    (by decide)

/-- C10: the status lookup matches the email case-insensitively: the right
id together with an email equal to the stored one up to letter case
returns the stored status. -/
theorem check_status_case_insensitive (db : List PartnerApplication)
    (app : PartnerApplication) (happ : app ∈ db)
    (huniq : ∀ b ∈ db, b.id = app.id → b = app)
    (e : String) (he : e ≠ "") (hcase : emailLower e = emailLower app.email) :
    PartnerApplicationViewSet.check_status db (some app.id) (some e) =
      PartnerApplicationViewSet.StatusLookupResult.ok app.status := by
  have hfound :
      db.find? (fun a => a.id == app.id && emailLower a.email == emailLower e) =
        some app := by
    apply find_first_of_unique _ _ _ happ
    · simp [hcase]
    · intro b hb hpb
      simp only [Bool.and_eq_true, beq_iff_eq] at hpb
      exact huniq b hb hpb.1
  simp [PartnerApplicationViewSet.check_status, he, hfound]

/-- Witness for C10: a lookup whose email differs from the stored one only
in letter case succeeds and reports the pending status. -/
theorem check_status_case_insensitive_witness :
    PartnerApplicationViewSet.check_status [submitApplication 1 "owner@resto.cm"]
        (some 1) (some "Owner@Resto.CM") =
      PartnerApplicationViewSet.StatusLookupResult.ok AppStatus.pending :=
  check_status_case_insensitive [submitApplication 1 "owner@resto.cm"]
    (submitApplication 1 "owner@resto.cm") (by decide) (by decide)
    "Owner@Resto.CM" (by decide) (by decide)

